import Mathlib

/-!
Verification development for the rwa_collateral program and its backend
client (`programs/rwa_collateral/src/lib.rs`, `backend/src/solana_client.rs`).

Byte buffers are modelled as `List Nat` with every element below 256;
machine integers are `Nat` (with an explicit `% 2^64` where the source
truncates a `u128` to `u64`) or `Int` for signed timestamps.  Fallible
instruction handlers return `Except ErrorCode`; the client decoders return
`Except DecodeFailure`, where a Rust slice-indexing panic is modelled as a
distinguished outcome, separate from the error path that the source reaches
through the `?` operator.
-/

/-- On-chain `Asset` account state (`lib.rs`, `pub struct Asset`).
Strings are their UTF-8 byte sequences; `owner` is a 32-byte public key. -/
structure Asset where
  asset_id : List Nat
  asset_type : List Nat
  valuation : Nat
  metadata_uri : List Nat
  owner : List Nat
  is_active : Bool
  risk_score : Nat
  bump : Nat
deriving Repr, DecidableEq

/-- On-chain `Loan` account state (`lib.rs`, `pub struct Loan`). -/
structure Loan where
  borrower : List Nat
  asset : List Nat
  principal : Nat
  interest_rate : Nat
  start_time : Int
  end_time : Int
  is_active : Bool
  repaid : Bool
  liquidated : Bool
  risk_score_at_creation : Nat
  bump : Nat
deriving Repr, DecidableEq

/-- Program error codes (`lib.rs`, `pub enum ErrorCode`). -/
inductive ErrorCode where
  | AssetInactive
  | InvalidRiskScore
  | LoanTooHigh
  | LoanInactive
  | NotEligibleForLiquidation
deriving Repr, DecidableEq

/-- Decidable equality for Except values, used to evaluate concrete runs of
the modelled operations. -/
instance exceptDecidableEq {ε α : Type} [DecidableEq ε] [DecidableEq α] :
    DecidableEq (Except ε α) := fun x y =>
  match x, y with
  | .ok a, .ok b =>
    match decEq a b with
    | .isTrue h => .isTrue (h ▸ rfl)
    | .isFalse h => .isFalse fun hc => h (Except.ok.inj hc)
  | .error e, .error f =>
    match decEq e f with
    | .isTrue h => .isTrue (h ▸ rfl)
    | .isFalse h => .isFalse fun hc => h (Except.error.inj hc)
  | .ok _, .error _ => .isFalse fun hc => Except.noConfusion hc
  | .error _, .ok _ => .isFalse fun hc => Except.noConfusion hc

/-- `initialize_asset` (`lib.rs` lines 10-30): creates the asset record with
`is_active = true` and default `risk_score = 50`.  The account address and
bump come from the runtime's PDA derivation, passed in here as `bump`. -/
def initialize_asset (asset_id asset_type : List Nat) (valuation : Nat)
    (metadata_uri : List Nat) (owner : List Nat) (bump : Nat) : Asset :=
  { asset_id := asset_id
    asset_type := asset_type
    valuation := valuation
    metadata_uri := metadata_uri
    owner := owner
    is_active := true
    risk_score := 50
    bump := bump }

/-- `update_risk_score` (`lib.rs` lines 33-46).  The source checks
`require!(asset.is_active, AssetInactive)` first, then
`require!(new_risk_score <= 100, InvalidRiskScore)`. -/
def update_risk_score (asset : Asset) (new_risk_score : Nat) :
    Except ErrorCode Asset :=
  if asset.is_active then
    if new_risk_score ≤ 100 then
      .ok { asset with risk_score := new_risk_score }
    else
      .error .InvalidRiskScore
  else
    .error .AssetInactive

/-- LTV tier table from `create_loan` (`lib.rs` lines 59-66): a `match` on
the `u8` risk score; scores above 100 fall to the `_ => 0` arm. -/
def max_ltv (risk_score : Nat) : Nat :=
  if risk_score ≤ 20 then 70
  else if risk_score ≤ 40 then 60
  else if risk_score ≤ 60 then 50
  else if risk_score ≤ 80 then 35
  else if risk_score ≤ 100 then 20
  else 0

/-- `max_loan` from `create_loan` (`lib.rs` line 68):
`(asset.valuation as u128 * max_ltv as u128 / 100) as u64`.  The `u128`
product cannot overflow (valuation < 2^64, ltv ≤ 70); the final cast to
`u64` is the explicit `% 2^64`. -/
def max_loan (valuation risk_score : Nat) : Nat :=
  (valuation * max_ltv risk_score / 100) % 2 ^ 64

/-- `create_loan` (`lib.rs` lines 49-83).  `asset_key` is the asset
account's address (`asset.key()`), `now` the runtime clock, `loan_bump` the
PDA bump of the new loan account.  Anchor's `init` zero-initializes the
account, so `repaid` and `liquidated` start `false`. -/
def create_loan (asset : Asset) (asset_key borrower : List Nat)
    (loan_amount interest_rate : Nat) (duration now : Int) (loan_bump : Nat) :
    Except ErrorCode Loan :=
  if loan_amount ≤ max_loan asset.valuation asset.risk_score then
    .ok { borrower := borrower
          asset := asset_key
          principal := loan_amount
          interest_rate := interest_rate
          start_time := now
          end_time := now + duration
          is_active := true
          repaid := false
          liquidated := false
          risk_score_at_creation := asset.risk_score
          bump := loan_bump }
  else
    .error .LoanTooHigh

/-- `repay_loan` (`lib.rs` lines 86-96). -/
def repay_loan (loan : Loan) : Except ErrorCode Loan :=
  if loan.is_active then
    .ok { loan with is_active := false, repaid := true }
  else
    .error .LoanInactive

/-- `liquidate_loan` (`lib.rs` lines 99-111).  The handler reads the risk
score of whichever asset account was supplied; neither the handler nor the
`LiquidateLoan` accounts struct (lines 181-197, whose asset constraint is
seeded only by the supplied asset's own `asset_id`) compares the supplied
asset's address with `loan.asset`. -/
def liquidate_loan (loan : Loan) (asset : Asset) : Except ErrorCode Loan :=
  if loan.is_active then
    if 80 < asset.risk_score then
      .ok { loan with is_active := false, liquidated := true }
    else
      .error .NotEligibleForLiquidation
  else
    .error .LoanInactive

/-- A sample active loan record, used to instantiate universal theorems. -/
def loan0 : Loan :=
  { borrower := [1], asset := [2], principal := 100, interest_rate := 500,
    start_time := 0, end_time := 60, is_active := true, repaid := false,
    liquidated := false, risk_score_at_creation := 50, bump := 7 }

/-- A sample active asset with risk score 85, above the liquidation bar. -/
def asset85 : Asset :=
  { asset_id := [65], asset_type := [66], valuation := 1000,
    metadata_uri := [67], owner := [3], is_active := true,
    risk_score := 85, bump := 9 }

/-- A sample active asset with the default risk score 50. -/
def asset50 : Asset :=
  { asset_id := [68], asset_type := [66], valuation := 1000000,
    metadata_uri := [67], owner := [3], is_active := true,
    risk_score := 50, bump := 11 }

/-- A sample inactive asset, for the error-precedence counterexample. -/
def assetInactive : Asset :=
  { asset_id := [69], asset_type := [66], valuation := 1000,
    metadata_uri := [67], owner := [3], is_active := false,
    risk_score := 50, bump := 13 }

/-- Tier index of the five `match` arms of the LTV table (`lib.rs` lines
59-66), used to state tier adjacency. -/
def riskTier (r : Nat) : Nat :=
  if r ≤ 20 then 0
  else if r ≤ 40 then 1
  else if r ≤ 60 then 2
  else if r ≤ 80 then 3
  else 4

/-- One successful loan state transition: a repay_loan or a liquidate_loan
call (against some supplied asset) that returns ok. -/
inductive LoanStep : Loan → Loan → Prop where
  | repay (l l' : Loan) (h : repay_loan l = .ok l') : LoanStep l l'
  | liquidate (l l' : Loan) (a : Asset) (h : liquidate_loan l a = .ok l') :
      LoanStep l l'

/-- Loan states reachable from the creation state (active, neither terminal
flag set) by any sequence of successful repay_loan / liquidate_loan calls. -/
inductive LoanReachable : Loan → Prop where
  | init (l : Loan) (ha : l.is_active = true) (hr : l.repaid = false)
      (hq : l.liquidated = false) : LoanReachable l
  | step (l l' : Loan) (h : LoanReachable l) (hs : LoanStep l l') :
      LoanReachable l'

/-- Asset states reachable from initialize_asset by any sequence of
successful update_risk_score calls. -/
inductive AssetReachable : Asset → Prop where
  | init (asset_id asset_type : List Nat) (valuation : Nat)
      (metadata_uri owner : List Nat) (bump : Nat) :
      AssetReachable
        (initialize_asset asset_id asset_type valuation metadata_uri owner bump)
  | step (a a' : Asset) (n : Nat) (h : AssetReachable a)
      (hu : update_risk_score a n = .ok a') : AssetReachable a'

/-- Collateral asset for the wrong-asset liquidation scenario, as created by
initialize_asset (so its risk score is the default 50). -/
def collateralAsset : Asset :=
  initialize_asset [82, 87, 65, 49] [114, 101] 1000000 [117] [10] 254

/-- Address of the collateral asset's account (a 32-byte key). -/
def collateralKey : List Nat := 1 :: List.replicate 31 0

/-- Address of the second, unrelated asset's account. -/
def otherKey : List Nat := 2 :: List.replicate 31 0

/-- The second asset after its risk score is pushed to 85 by the oracle. -/
def otherAsset : Asset :=
  { initialize_asset [82, 87, 65, 50] [114, 101] 1000 [117] [10] 253 with
    risk_score := 85 }

/-- The loan created against collateralAsset: principal 400000, within the
50% tier of a 1000000 valuation. -/
def wrongAssetLoan : Loan :=
  { borrower := [5], asset := collateralKey, principal := 400000,
    interest_rate := 500, start_time := 1700000000,
    end_time := 1700000000 + 86400, is_active := true, repaid := false,
    liquidated := false, risk_score_at_creation := 50, bump := 252 }

/-- A failed client-side decode.  panicOutOfBounds models a Rust panic from
an out-of-range slice or index (`data[c..c+k]`, `data[c]`); utf8Error models
the Err value String::from_utf8 returns and `?` propagates. -/
inductive DecodeFailure where
  | panicOutOfBounds
  | utf8Error
deriving Repr, DecidableEq

/-- Rust `&data[c..c+k]`: panics unless the range lies within bounds. -/
def sliceBytes (data : List Nat) (c k : Nat) : Except DecodeFailure (List Nat) :=
  if c + k ≤ data.length then .ok ((data.drop c).take k)
  else .error .panicOutOfBounds

/-- Rust `data[c]`: panics unless the index lies within bounds. -/
def byteAt (data : List Nat) (c : Nat) : Except DecodeFailure Nat :=
  if c < data.length then .ok (data.getD c 0) else .error .panicOutOfBounds

/-- Little-endian value of a byte list (`u32::from_le_bytes`,
`u64::from_le_bytes`). -/
def leNat (bs : List Nat) : Nat := bs.foldr (fun b acc => b + 256 * acc) 0

/-- `i64::from_le_bytes`: two's-complement reading of 8 little-endian
bytes. -/
def i64ofLe (bs : List Nat) : Int :=
  if leNat bs < 2 ^ 63 then (leNat bs : Int) else (leNat bs : Int) - 2 ^ 64

/-- A UTF-8 continuation byte (0x80-0xBF). -/
def isCont (b : Nat) : Bool := decide (0x80 ≤ b ∧ b ≤ 0xBF)

/-- Byte constraints of a 3-byte UTF-8 sequence led by b0. -/
def utf8Valid3 (b0 b1 b2 : Nat) : Bool :=
  (if b0 = 0xE0 then decide (0xA0 ≤ b1 ∧ b1 ≤ 0xBF)
   else if b0 = 0xED then decide (0x80 ≤ b1 ∧ b1 ≤ 0x9F)
   else isCont b1) && isCont b2

/-- Byte constraints of a 4-byte UTF-8 sequence led by b0. -/
def utf8Valid4 (b0 b1 b2 b3 : Nat) : Bool :=
  (if b0 = 0xF0 then decide (0x90 ≤ b1 ∧ b1 ≤ 0xBF)
   else if b0 = 0xF4 then decide (0x80 ≤ b1 ∧ b1 ≤ 0x8F)
   else isCont b1) && isCont b2 && isCont b3

/-- Validity of a byte sequence as UTF-8: the check String::from_utf8
performs. -/
def utf8Valid : List Nat → Bool
  | [] => true
  | b0 :: rest =>
    if b0 ≤ 0x7F then utf8Valid rest
    else if b0 < 0xC2 then false
    else if b0 ≤ 0xDF then
      match rest with
      | b1 :: r => isCont b1 && utf8Valid r
      | [] => false
    else if b0 ≤ 0xEF then
      match rest with
      | b1 :: b2 :: r => utf8Valid3 b0 b1 b2 && utf8Valid r
      | _ => false
    else if b0 ≤ 0xF4 then
      match rest with
      | b1 :: b2 :: b3 :: r => utf8Valid4 b0 b1 b2 b3 && utf8Valid r
      | _ => false
    else false

/-- `String::from_utf8`: succeeds exactly on valid UTF-8.  A decoded string
is identified with its byte sequence. -/
def stringFromUtf8 (bs : List Nat) : Except DecodeFailure (List Nat) :=
  if utf8Valid bs then .ok bs else .error .utf8Error

/-- Modelled from the spec: the 4-byte little-endian length prefix of the
account wire layout (spec 4.2); the on-chain serializer itself is generated
code not present under src. -/
def u32le (n : Nat) : List Nat :=
  [n % 256, n / 256 % 256, n / 65536 % 256, n / 16777216 % 256]

/-- Modelled from the spec: fixed-width 8-byte little-endian unsigned
integer of the account wire layout (spec 4.2). -/
def u64le (n : Nat) : List Nat :=
  [n % 256, n / 256 % 256, n / 65536 % 256, n / 16777216 % 256,
   n / 4294967296 % 256, n / 1099511627776 % 256,
   n / 281474976710656 % 256, n / 72057594037927936 % 256]

/-- Modelled from the spec: length-prefixed string encoding (spec 4.2). -/
def encodeString (s : List Nat) : List Nat := u32le s.length ++ s

/-- Modelled from the spec: one-byte boolean encoding (spec 4.2). -/
def encodeBool (b : Bool) : List Nat := [if b then 1 else 0]

/-- Modelled from the spec: the exact bytes the on-chain program stores for
an Asset account (spec 3, 4.2, 6): an 8-byte discriminator, then asset_id,
asset_type, valuation, metadata_uri, owner, is_active, risk_score, bump in
declared order, little-endian and length-prefixed, with no padding.  The
discriminator's concrete value is left as a parameter; decoding skips it. -/
def encodeAsset (disc : List Nat) (a : Asset) : List Nat :=
  disc ++ encodeString a.asset_id ++ encodeString a.asset_type ++
    u64le a.valuation ++ encodeString a.metadata_uri ++ a.owner ++
    encodeBool a.is_active ++ [a.risk_score] ++ [a.bump]

/-- Well-formedness of an in-memory Asset record: strings are valid UTF-8
with lengths that fit the u32 prefix, the owner key is 32 bytes, and the
valuation fits u64. -/
def Asset.WF (a : Asset) : Prop :=
  utf8Valid a.asset_id = true ∧ a.asset_id.length < 2 ^ 32 ∧
  utf8Valid a.asset_type = true ∧ a.asset_type.length < 2 ^ 32 ∧
  utf8Valid a.metadata_uri = true ∧ a.metadata_uri.length < 2 ^ 32 ∧
  a.owner.length = 32 ∧ a.valuation < 2 ^ 64

instance assetWFDecidable (a : Asset) : Decidable a.WF := by
  unfold Asset.WF
  infer_instance

/-- Client-side record decoded by `AssetAccount::from_bytes`
(`solana_client.rs` lines 54-65).  Unlike the on-chain Asset, it carries a
last_update field. -/
structure AssetAccount where
  asset_id : List Nat
  asset_type : List Nat
  valuation : Nat
  metadata_uri : List Nat
  owner : List Nat
  is_active : Bool
  risk_score : Nat
  last_update : Int
  bump : Nat
deriving Repr, DecidableEq

/-- `AssetAccount::from_bytes` (`solana_client.rs` lines 83-131): skips the
8-byte discriminator, then reads asset_id, asset_type, valuation,
metadata_uri, owner, is_active, risk_score, last_update, bump with unchecked
slice indexing. -/
def AssetAccount.from_bytes (data : List Nat) :
    Except DecodeFailure AssetAccount := do
  let c := 8
  let lb ← sliceBytes data c 4
  let asset_id_len := leNat lb
  let c := c + 4
  let sb ← sliceBytes data c asset_id_len
  let asset_id ← stringFromUtf8 sb
  let c := c + asset_id_len
  let tb ← sliceBytes data c 4
  let asset_type_len := leNat tb
  let c := c + 4
  let ub ← sliceBytes data c asset_type_len
  let asset_type ← stringFromUtf8 ub
  let c := c + asset_type_len
  let vb ← sliceBytes data c 8
  let valuation := leNat vb
  let c := c + 8
  let mb ← sliceBytes data c 4
  let metadata_uri_len := leNat mb
  let c := c + 4
  let nb ← sliceBytes data c metadata_uri_len
  let metadata_uri ← stringFromUtf8 nb
  let c := c + metadata_uri_len
  let ob ← sliceBytes data c 32
  let c := c + 32
  let ab ← byteAt data c
  let c := c + 1
  let risk_score ← byteAt data c
  let c := c + 1
  let db ← sliceBytes data c 8
  let c := c + 8
  let bump ← byteAt data c
  pure { asset_id := asset_id, asset_type := asset_type,
         valuation := valuation, metadata_uri := metadata_uri, owner := ob,
         is_active := ab != 0, risk_score := risk_score,
         last_update := i64ofLe db, bump := bump }

/-- Client-side record decoded by `LoanAccount::from_bytes`
(`solana_client.rs` lines 67-80). -/
structure LoanAccount where
  borrower : List Nat
  asset : List Nat
  principal : Nat
  interest_rate : Nat
  start_time : Int
  end_time : Int
  is_active : Bool
  repaid : Bool
  liquidated : Bool
  risk_score_at_creation : Nat
  bump : Nat
deriving Repr, DecidableEq

/-- `LoanAccount::from_bytes` (`solana_client.rs` lines 133-183). -/
def LoanAccount.from_bytes (data : List Nat) :
    Except DecodeFailure LoanAccount := do
  let c := 8
  let bb ← sliceBytes data c 32
  let c := c + 32
  let ak ← sliceBytes data c 32
  let c := c + 32
  let pb ← sliceBytes data c 8
  let c := c + 8
  let ib ← sliceBytes data c 8
  let c := c + 8
  let sb ← sliceBytes data c 8
  let c := c + 8
  let eb ← sliceBytes data c 8
  let c := c + 8
  let ab ← byteAt data c
  let c := c + 1
  let rb ← byteAt data c
  let c := c + 1
  let qb ← byteAt data c
  let c := c + 1
  let cb ← byteAt data c
  let c := c + 1
  let bump ← byteAt data c
  pure { borrower := bb, asset := ak, principal := leNat pb,
         interest_rate := leNat ib, start_time := i64ofLe sb,
         end_time := i64ofLe eb, is_active := ab != 0, repaid := rb != 0,
         liquidated := qb != 0, risk_score_at_creation := cb, bump := bump }

/-- A well-formed asset with a 32-byte owner key, for the codec theorems. -/
def assetWire : Asset :=
  { asset_id := [82, 87, 65, 49], asset_type := [114, 101, 97, 108],
    valuation := 1000000, metadata_uri := [104, 116, 116, 112],
    owner := List.replicate 32 7, is_active := true, risk_score := 50,
    bump := 254 }

/-- A discriminator value for concrete codec runs; decoding skips it. -/
def assetDisc : List Nat := [1, 2, 3, 4, 5, 6, 7, 8]

/-- A buffer cut off in the middle of the first string-length field
(8 discriminator bytes followed by only 2 of the 4 length bytes). -/
def truncatedBuf : List Nat := [214, 153, 49, 248, 95, 248, 208, 179, 5, 0]

/-- Inversion: a successful repay_loan call implies the loan was active and
characterizes the returned record. -/
theorem repay_loan_ok (loan l' : Loan) (h : repay_loan loan = .ok l') :
    loan.is_active = true ∧ l' = { loan with is_active := false, repaid := true } := by
  by_cases hb : loan.is_active <;> simp_all [repay_loan]

/-- Inversion: a successful liquidate_loan call implies the loan was active,
the supplied asset's risk score exceeded 80, and characterizes the result. -/
theorem liquidate_loan_ok (loan l' : Loan) (a : Asset)
    (h : liquidate_loan loan a = .ok l') :
    loan.is_active = true ∧ 80 < a.risk_score ∧
      l' = { loan with is_active := false, liquidated := true } := by
  by_cases hb : loan.is_active <;> by_cases h2 : 80 < a.risk_score <;>
    simp_all [liquidate_loan]

/-- repay_loan on an inactive loan reports the inactive-loan error. -/
theorem repay_loan_inactive (loan : Loan) (h : loan.is_active = false) :
    repay_loan loan = .error .LoanInactive := by
  simp [repay_loan, h]

/-- liquidate_loan on an inactive loan reports the inactive-loan error. -/
theorem liquidate_loan_inactive (loan : Loan) (a : Asset)
    (h : loan.is_active = false) :
    liquidate_loan loan a = .error .LoanInactive := by
  simp [liquidate_loan, h]

/-- Claim C5: liquidate_loan succeeds iff the loan is active and the asset's
current risk score is strictly greater than 80; an inactive loan fails with
LoanInactive, an active loan with risk score at most 80 (including exactly
80) fails with NotEligibleForLiquidation, and success sets is_active = false
and liquidated = true. -/
theorem liquidate_loan_spec (loan : Loan) (asset : Asset) :
    ((∃ l', liquidate_loan loan asset = .ok l') ↔
      (loan.is_active = true ∧ 80 < asset.risk_score)) ∧
    (loan.is_active = false → liquidate_loan loan asset = .error .LoanInactive) ∧
    (loan.is_active = true → asset.risk_score ≤ 80 →
      liquidate_loan loan asset = .error .NotEligibleForLiquidation) ∧
    (∀ l', liquidate_loan loan asset = .ok l' →
      l' = { loan with is_active := false, liquidated := true }) := by
  refine ⟨⟨?_, ?_⟩, ?_, ?_, ?_⟩
  · rintro ⟨l', hl⟩
    exact ⟨(liquidate_loan_ok loan l' asset hl).1,
      (liquidate_loan_ok loan l' asset hl).2.1⟩
  · rintro ⟨h, h2⟩
    exact ⟨{ loan with is_active := false, liquidated := true },
      by simp [liquidate_loan, h, h2]⟩
  · exact liquidate_loan_inactive loan asset
  · intro h h2
    unfold liquidate_loan
    rw [h, if_pos rfl, if_neg (by omega)]
  · intro l' hl
    exact (liquidate_loan_ok loan l' asset hl).2.2

theorem liquidate_loan_spec_witness :
    ((∃ l', liquidate_loan loan0 asset85 = .ok l') ↔
      (loan0.is_active = true ∧ 80 < asset85.risk_score)) ∧
    (loan0.is_active = false → liquidate_loan loan0 asset85 = .error .LoanInactive) ∧
    (loan0.is_active = true → asset85.risk_score ≤ 80 →
      liquidate_loan loan0 asset85 = .error .NotEligibleForLiquidation) ∧
    (∀ l', liquidate_loan loan0 asset85 = .ok l' →
      l' = { loan0 with is_active := false, liquidated := true }) :=
  liquidate_loan_spec loan0 asset85

/-- Claim C6: repay_loan fails with the inactive-loan error unless the loan
is active, on success sets is_active = false and repaid = true, and after
either repay_loan or liquidate_loan succeeds, any further repay_loan or
liquidate_loan call on the resulting record fails with the inactive-loan
error rather than succeeding silently. -/
theorem repay_loan_spec (loan : Loan) :
    (loan.is_active = false → repay_loan loan = .error .LoanInactive) ∧
    ((∃ l', repay_loan loan = .ok l') ↔ loan.is_active = true) ∧
    (∀ l', repay_loan loan = .ok l' →
      l' = { loan with is_active := false, repaid := true }) ∧
    (∀ l', repay_loan loan = .ok l' →
      repay_loan l' = .error .LoanInactive ∧
      ∀ a, liquidate_loan l' a = .error .LoanInactive) ∧
    (∀ a l', liquidate_loan loan a = .ok l' →
      repay_loan l' = .error .LoanInactive ∧
      ∀ a2, liquidate_loan l' a2 = .error .LoanInactive) := by
  refine ⟨?_, ⟨?_, ?_⟩, ?_, ?_, ?_⟩
  · exact repay_loan_inactive loan
  · rintro ⟨l', hl⟩
    exact (repay_loan_ok loan l' hl).1
  · intro h
    exact ⟨{ loan with is_active := false, repaid := true },
      by simp [repay_loan, h]⟩
  · intro l' hl
    exact (repay_loan_ok loan l' hl).2
  · intro l' hl
    obtain ⟨h, hl'⟩ := repay_loan_ok loan l' hl
    subst hl'
    exact ⟨repay_loan_inactive _ rfl, fun a => liquidate_loan_inactive _ a rfl⟩
  · intro a l' hl
    obtain ⟨h, h2, hl'⟩ := liquidate_loan_ok loan l' a hl
    subst hl'
    exact ⟨repay_loan_inactive _ rfl, fun a2 => liquidate_loan_inactive _ a2 rfl⟩

theorem repay_loan_spec_witness :
    (loan0.is_active = false → repay_loan loan0 = .error .LoanInactive) ∧
    ((∃ l', repay_loan loan0 = .ok l') ↔ loan0.is_active = true) ∧
    (∀ l', repay_loan loan0 = .ok l' →
      l' = { loan0 with is_active := false, repaid := true }) ∧
    (∀ l', repay_loan loan0 = .ok l' →
      repay_loan l' = .error .LoanInactive ∧
      ∀ a, liquidate_loan l' a = .error .LoanInactive) ∧
    (∀ a l', liquidate_loan loan0 a = .ok l' →
      repay_loan l' = .error .LoanInactive ∧
      ∀ a2, liquidate_loan l' a2 = .error .LoanInactive) :=
  repay_loan_spec loan0

/-- Claim C2: liquidate_loan evaluates the risk check against whichever
asset account the caller supplies.  In a state reachable by initializing two
assets, raising only the second one's risk score to 85, and creating a loan
collateralized by the first (whose risk score stays 50, so not eligible),
liquidation succeeds when the caller passes the unrelated second asset,
whose account address differs from loan.asset. -/
theorem liquidate_wrong_asset :
    collateralAsset.risk_score = 50 ∧
    update_risk_score
        (initialize_asset [82, 87, 65, 50] [114, 101] 1000 [117] [10] 253) 85
      = .ok otherAsset ∧
    create_loan collateralAsset collateralKey [5] 400000 500 86400 1700000000 252
      = .ok wrongAssetLoan ∧
    wrongAssetLoan.asset = collateralKey ∧
    collateralKey ≠ otherKey ∧
    otherAsset.risk_score = 85 ∧
    wrongAssetLoan.is_active = true ∧
    liquidate_loan wrongAssetLoan collateralAsset
      = .error .NotEligibleForLiquidation ∧
    liquidate_loan wrongAssetLoan otherAsset
      = .ok { wrongAssetLoan with is_active := false, liquidated := true } := by
  decide

/-- Inversion: a successful update_risk_score call implies the asset was
active, the new score is at most 100, and only risk_score changed. -/
theorem update_risk_score_ok (a a' : Asset) (n : Nat)
    (h : update_risk_score a n = .ok a') :
    a.is_active = true ∧ n ≤ 100 ∧ a' = { a with risk_score := n } := by
  by_cases hb : a.is_active <;> by_cases h2 : n ≤ 100 <;>
    simp_all [update_risk_score]

/-- Claim C8 counterexample: for an inactive asset and new_risk_score = 101,
update_risk_score reports AssetInactive, not the out-of-range error that the
claim, read as covering every asset state, prescribes for any score above
100. -/
theorem update_risk_score_precedence_cex :
    update_risk_score assetInactive 101 = .error .AssetInactive ∧
    update_risk_score assetInactive 101 ≠ .error .InvalidRiskScore := by
  decide

/-- Claim C8 (amended): update_risk_score fails with the inactive-asset
error whenever the asset is not active (that check runs first); it fails
with the out-of-range error when the asset is active and new_risk_score
exceeds 100; in either failure case it returns an error and leaves the
record unchanged; on success it overwrites risk_score with new_risk_score
and changes no other field. -/
theorem update_risk_score_spec (a : Asset) (n : Nat) :
    (a.is_active = false → update_risk_score a n = .error .AssetInactive) ∧
    (a.is_active = true → 100 < n →
      update_risk_score a n = .error .InvalidRiskScore) ∧
    ((∃ a', update_risk_score a n = .ok a') ↔ (a.is_active = true ∧ n ≤ 100)) ∧
    (∀ a', update_risk_score a n = .ok a' → a' = { a with risk_score := n }) := by
  refine ⟨?_, ?_, ⟨?_, ?_⟩, ?_⟩
  · intro h
    simp [update_risk_score, h]
  · intro h h2
    unfold update_risk_score
    rw [h, if_pos rfl, if_neg (by omega)]
  · rintro ⟨a', ha⟩
    exact ⟨(update_risk_score_ok a a' n ha).1, (update_risk_score_ok a a' n ha).2.1⟩
  · rintro ⟨h, h2⟩
    exact ⟨{ a with risk_score := n }, by simp [update_risk_score, h, h2]⟩
  · intro a' ha
    exact (update_risk_score_ok a a' n ha).2.2

theorem update_risk_score_spec_witness :
    (asset50.is_active = false →
      update_risk_score asset50 75 = .error .AssetInactive) ∧
    (asset50.is_active = true → 100 < 75 →
      update_risk_score asset50 75 = .error .InvalidRiskScore) ∧
    ((∃ a', update_risk_score asset50 75 = .ok a') ↔
      (asset50.is_active = true ∧ 75 ≤ 100)) ∧
    (∀ a', update_risk_score asset50 75 = .ok a' →
      a' = { asset50 with risk_score := 75 }) :=
  update_risk_score_spec asset50 75

/-- Claim C9: every asset state reachable from initialize_asset (which sets
risk_score = 50) through successful update_risk_score calls satisfies
0 ≤ risk_score ≤ 100. -/
theorem risk_score_range (a : Asset) (h : AssetReachable a) :
    0 ≤ a.risk_score ∧ a.risk_score ≤ 100 := by
  induction h with
  | init asset_id asset_type valuation metadata_uri owner bump =>
    exact ⟨Nat.zero_le _, by simp [initialize_asset]⟩
  | step a a' n h1 hu ih =>
    obtain ⟨hb, h2, ha⟩ := update_risk_score_ok a a' n hu
    subst ha
    exact ⟨Nat.zero_le _, by simpa using h2⟩

theorem risk_score_range_witness :
    0 ≤ (initialize_asset [82] [87] 5 [88] [9] 255).risk_score ∧
    (initialize_asset [82] [87] 5 [88] [9] 255).risk_score ≤ 100 :=
  risk_score_range (initialize_asset [82] [87] 5 [88] [9] 255)
    (.init [82] [87] 5 [88] [9] 255)

/-- The LTV percentage never exceeds 100. -/
theorem max_ltv_le_100 (r : Nat) : max_ltv r ≤ 100 := by
  unfold max_ltv
  split_ifs <;> omega

/-- For valuations below 2^64 the `as u64` cast in `create_loan` is lossless:
max_loan is exactly the integer floor of valuation * ltv / 100. -/
theorem max_loan_eq (v r : Nat) (hv : v < 2 ^ 64) :
    max_loan v r = v * max_ltv r / 100 := by
  unfold max_loan
  apply Nat.mod_eq_of_lt
  calc v * max_ltv r / 100 ≤ v * 100 / 100 :=
        Nat.div_le_div_right (Nat.mul_le_mul_left v (max_ltv_le_100 r))
    _ < 2 ^ 64 := by omega

/-- Claim C4: create_loan computes max_loan = floor(valuation * ltv / 100)
in exact integer arithmetic, with ltv drawn from the tier table (0-20 gives
70, 21-40 gives 60, 41-60 gives 50, 61-80 gives 35, 81-100 gives 20), and
fails with LoanTooHigh exactly when loan_amount exceeds max_loan: any amount
up to and including max_loan succeeds, any larger amount fails. -/
theorem create_loan_ltv_spec (a : Asset) (key borrower : List Nat)
    (ir : Nat) (dur now : Int) (b : Nat) (hv : a.valuation < 2 ^ 64) :
    (a.risk_score ≤ 20 → max_ltv a.risk_score = 70) ∧
    (21 ≤ a.risk_score → a.risk_score ≤ 40 → max_ltv a.risk_score = 60) ∧
    (41 ≤ a.risk_score → a.risk_score ≤ 60 → max_ltv a.risk_score = 50) ∧
    (61 ≤ a.risk_score → a.risk_score ≤ 80 → max_ltv a.risk_score = 35) ∧
    (81 ≤ a.risk_score → a.risk_score ≤ 100 → max_ltv a.risk_score = 20) ∧
    max_loan a.valuation a.risk_score = a.valuation * max_ltv a.risk_score / 100 ∧
    (∀ amt, amt ≤ max_loan a.valuation a.risk_score →
      ∃ l, create_loan a key borrower amt ir dur now b = .ok l) ∧
    (∀ amt, max_loan a.valuation a.risk_score < amt →
      create_loan a key borrower amt ir dur now b = .error .LoanTooHigh) := by
  refine ⟨?_, ?_, ?_, ?_, ?_, max_loan_eq _ _ hv, ?_, ?_⟩
  · intro h1
    unfold max_ltv
    split_ifs <;> omega
  · intro h1 h2
    unfold max_ltv
    split_ifs <;> omega
  · intro h1 h2
    unfold max_ltv
    split_ifs <;> omega
  · intro h1 h2
    unfold max_ltv
    split_ifs <;> omega
  · intro h1 h2
    unfold max_ltv
    split_ifs <;> omega
  · intro amt hle
    refine ⟨{ borrower := borrower, asset := key, principal := amt,
              interest_rate := ir, start_time := now, end_time := now + dur,
              is_active := true, repaid := false, liquidated := false,
              risk_score_at_creation := a.risk_score, bump := b }, ?_⟩
    unfold create_loan
    rw [if_pos hle]
  · intro amt hgt
    unfold create_loan
    rw [if_neg (by omega)]

theorem create_loan_ltv_spec_witness :
    ((asset50.risk_score ≤ 20 → max_ltv asset50.risk_score = 70) ∧
    (21 ≤ asset50.risk_score → asset50.risk_score ≤ 40 →
      max_ltv asset50.risk_score = 60) ∧
    (41 ≤ asset50.risk_score → asset50.risk_score ≤ 60 →
      max_ltv asset50.risk_score = 50) ∧
    (61 ≤ asset50.risk_score → asset50.risk_score ≤ 80 →
      max_ltv asset50.risk_score = 35) ∧
    (81 ≤ asset50.risk_score → asset50.risk_score ≤ 100 →
      max_ltv asset50.risk_score = 20) ∧
    max_loan asset50.valuation asset50.risk_score
      = asset50.valuation * max_ltv asset50.risk_score / 100 ∧
    (∀ amt, amt ≤ max_loan asset50.valuation asset50.risk_score →
      ∃ l, create_loan asset50 collateralKey [5] amt 500 86400 1700000000 252
        = .ok l) ∧
    (∀ amt, max_loan asset50.valuation asset50.risk_score < amt →
      create_loan asset50 collateralKey [5] amt 500 86400 1700000000 252
        = .error .LoanTooHigh)) :=
  create_loan_ltv_spec asset50 collateralKey [5] 500 86400 1700000000 252
    (by decide)

/-- Any single loan step preserves terminal flags and never reactivates an
inactive loan. -/
theorem loan_step_monotone (l l' : Loan) (hs : LoanStep l l') :
    (l.repaid = true → l'.repaid = true) ∧
    (l.liquidated = true → l'.liquidated = true) ∧
    (l.is_active = false → l'.is_active = false) := by
  cases hs with
  | repay hok =>
    obtain ⟨ha, he⟩ := repay_loan_ok _ _ hok
    subst he
    exact ⟨fun _ => rfl, id, fun _ => rfl⟩
  | liquidate a hok =>
    obtain ⟨ha, _, he⟩ := liquidate_loan_ok _ _ a hok
    subst he
    exact ⟨id, fun _ => rfl, fun _ => rfl⟩

/-- Reachable loan states: an active loan has both terminal flags cleared,
and the two terminal flags are never both set. -/
theorem loan_reachable_inv (l : Loan) (h : LoanReachable l) :
    (l.is_active = true → l.repaid = false ∧ l.liquidated = false) ∧
    ¬(l.repaid = true ∧ l.liquidated = true) := by
  induction h with
  | init l ha hr hq => exact ⟨fun _ => ⟨hr, hq⟩, by simp [hr]⟩
  | step l l' h1 hs ih =>
    cases hs with
    | repay hok =>
      obtain ⟨ha, he⟩ := repay_loan_ok _ _ hok
      obtain ⟨hrf, hqf⟩ := ih.1 ha
      subst he
      exact ⟨fun hc => by simp at hc, by simp [hqf]⟩
    | liquidate a hok =>
      obtain ⟨ha, hrisk, he⟩ := liquidate_loan_ok _ _ a hok
      obtain ⟨hrf, hqf⟩ := ih.1 ha
      subst he
      exact ⟨fun hc => by simp at hc, by simp [hrf]⟩

/-- Claim C7: in every loan state reachable from creation via repay_loan and
liquidate_loan, an active loan has both terminal flags false, the two
terminal flags are never both true, and along any further step each terminal
flag once true stays true while an inactive loan never becomes active
again. -/
theorem loan_lifecycle_invariant (l : Loan) (h : LoanReachable l) :
    (l.is_active = true → l.repaid = false ∧ l.liquidated = false) ∧
    ¬(l.repaid = true ∧ l.liquidated = true) ∧
    (∀ l', LoanStep l l' →
      (l.repaid = true → l'.repaid = true) ∧
      (l.liquidated = true → l'.liquidated = true) ∧
      (l.is_active = false → l'.is_active = false)) :=
  ⟨(loan_reachable_inv l h).1, (loan_reachable_inv l h).2,
    fun l' hs => loan_step_monotone l l' hs⟩

theorem loan_lifecycle_invariant_witness :
    ((loan0.is_active = true → loan0.repaid = false ∧ loan0.liquidated = false) ∧
    ¬(loan0.repaid = true ∧ loan0.liquidated = true) ∧
    (∀ l', LoanStep loan0 l' →
      (loan0.repaid = true → l'.repaid = true) ∧
      (loan0.liquidated = true → l'.liquidated = true) ∧
      (loan0.is_active = false → l'.is_active = false))) :=
  loan_lifecycle_invariant loan0 (.init loan0 rfl rfl rfl)

/-- The LTV percentage is antitone in the risk score. -/
theorem max_ltv_antitone (a b : Nat) (hab : a ≤ b) : max_ltv b ≤ max_ltv a := by
  unfold max_ltv
  split_ifs <;> omega

/-- Claim C10: for equal valuation and risk scores a < b within the table
that lie in the same tier or in adjacent tiers, the loan ceiling is antitone
in risk: max_loan(v, a) is at least max_loan(v, b). -/
theorem max_loan_antitone (v a b : Nat) (hv : v < 2 ^ 64) (hab : a < b)
    (hb100 : b ≤ 100)
    (htier : riskTier a = riskTier b ∨ riskTier a + 1 = riskTier b) :
    max_loan v b ≤ max_loan v a := by
  rw [max_loan_eq v a hv, max_loan_eq v b hv]
  exact Nat.div_le_div_right
    (Nat.mul_le_mul_left v (max_ltv_antitone a b (Nat.le_of_lt hab)))

theorem max_loan_antitone_witness :
    max_loan 1000000 35 ≤ max_loan 1000000 30 :=
  max_loan_antitone 1000000 30 35 (by decide) (by decide) (by decide)
    (Or.inl (by decide))

/-- Bind of a successful Except step. -/
theorem except_bind_ok {e a b : Type} (x : a) (f : a → Except e b) :
    (Except.ok x : Except e a) >>= f = f x := rfl

/-- Bind of a failed Except step. -/
theorem except_bind_error {e a b : Type} (err : e) (f : a → Except e b) :
    (Except.error err : Except e a) >>= f = Except.error err := rfl

/-- Reading k bytes at the cursor position right after an exact prefix
returns the next chunk. -/
theorem sliceBytes_split (data pre chunk rest : List Nat) (c k : Nat)
    (hd : data = pre ++ (chunk ++ rest)) (hc : pre.length = c)
    (hk : chunk.length = k) :
    sliceBytes data c k = .ok chunk := by
  subst hd
  subst hc
  subst hk
  unfold sliceBytes
  rw [if_pos (by rw [List.length_append, List.length_append]; omega)]
  congr 1
  rw [List.drop_left, List.take_left]

/-- A read that extends past the end of the buffer panics. -/
theorem sliceBytes_oob (data : List Nat) (c k : Nat)
    (h : data.length < c + k) :
    sliceBytes data c k = .error .panicOutOfBounds := by
  unfold sliceBytes
  rw [if_neg (by omega)]

/-- getD at the index right after a prefix reads the next element. -/
theorem getD_append_self (pre rest : List Nat) (x : Nat) :
    (pre ++ (x :: rest)).getD pre.length 0 = x := by
  induction pre with
  | nil => rfl
  | cons y ys ih => simpa using ih

/-- Reading the byte at the cursor position right after an exact prefix. -/
theorem byteAt_split (data pre rest : List Nat) (x c : Nat)
    (hd : data = pre ++ (x :: rest)) (hc : pre.length = c) :
    byteAt data c = .ok x := by
  subst hd
  subst hc
  unfold byteAt
  rw [if_pos (by rw [List.length_append, List.length_cons]; omega)]
  rw [getD_append_self]

/-- The u32 length prefix round-trips through from_le_bytes. -/
theorem leNat_u32le (n : Nat) (h : n < 2 ^ 32) : leNat (u32le n) = n := by
  simp only [leNat, u32le, List.foldr_cons, List.foldr_nil]
  omega

/-- String::from_utf8 succeeds on valid UTF-8 and returns the same bytes. -/
theorem stringFromUtf8_ok (s : List Nat) (h : utf8Valid s = true) :
    stringFromUtf8 s = .ok s := by
  simp [stringFromUtf8, h]

/-- Claim C1 counterexample: a concrete well-formed Asset record whose exact
stored byte sequence the client decoder fails to decode at all - it reads
past the end of the buffer looking for a last_update field - so the decoded
record cannot equal the original. -/
theorem asset_roundtrip_cex :
    Asset.WF assetWire ∧
    AssetAccount.from_bytes (encodeAsset assetDisc assetWire)
      = .error .panicOutOfBounds := by
  decide

/-- Claim C1 (amended): for every well-formed Asset record and any 8-byte
discriminator, AssetAccount::from_bytes fails on the exact byte sequence the
on-chain program stores (discriminator, then asset_id, asset_type,
valuation, metadata_uri, owner, is_active, risk_score, bump in declared
order under the little-endian / length-prefixed rules): after risk_score the
client decoder expects an additional 8-byte last_update field that the
on-chain Asset layout does not contain, so it reads past the buffer end
(a panic, modelled as panicOutOfBounds) instead of returning the record. -/
theorem asset_roundtrip_fails (disc : List Nat) (a : Asset)
    (hdisc : disc.length = 8) (hwf : a.WF) :
    AssetAccount.from_bytes (encodeAsset disc a) = .error .panicOutOfBounds := by
  obtain ⟨hu1, hn1, hu2, hn2, hu3, hn3, how, hval⟩ := hwf
  have hle1 := leNat_u32le a.asset_id.length hn1
  have hle2 := leNat_u32le a.asset_type.length hn2
  have hle3 := leNat_u32le a.metadata_uri.length hn3
  have hs1 := stringFromUtf8_ok a.asset_id hu1
  have hs2 := stringFromUtf8_ok a.asset_type hu2
  have hs3 := stringFromUtf8_ok a.metadata_uri hu3
  have h1 : sliceBytes (encodeAsset disc a) 8 4 = .ok (u32le a.asset_id.length) :=
    sliceBytes_split _ disc (u32le a.asset_id.length)
      (a.asset_id ++ (u32le a.asset_type.length ++ (a.asset_type ++
        (u64le a.valuation ++ (u32le a.metadata_uri.length ++
        (a.metadata_uri ++ (a.owner ++ (encodeBool a.is_active ++
        ([a.risk_score] ++ [a.bump])))))))))
      8 4
      (by simp [encodeAsset, encodeString, List.append_assoc]) hdisc
      (by simp [u32le])
  have h2 : sliceBytes (encodeAsset disc a) 12 a.asset_id.length
      = .ok a.asset_id :=
    sliceBytes_split _ (disc ++ u32le a.asset_id.length) a.asset_id
      (u32le a.asset_type.length ++ (a.asset_type ++
        (u64le a.valuation ++ (u32le a.metadata_uri.length ++
        (a.metadata_uri ++ (a.owner ++ (encodeBool a.is_active ++
        ([a.risk_score] ++ [a.bump]))))))))
      12 a.asset_id.length
      (by simp [encodeAsset, encodeString, List.append_assoc])
      (by simp [u32le, hdisc]) rfl
  have h3 : sliceBytes (encodeAsset disc a) (12 + a.asset_id.length) 4
      = .ok (u32le a.asset_type.length) :=
    sliceBytes_split _ (disc ++ u32le a.asset_id.length ++ a.asset_id)
      (u32le a.asset_type.length)
      (a.asset_type ++ (u64le a.valuation ++ (u32le a.metadata_uri.length ++
        (a.metadata_uri ++ (a.owner ++ (encodeBool a.is_active ++
        ([a.risk_score] ++ [a.bump])))))))
      (12 + a.asset_id.length) 4
      (by simp [encodeAsset, encodeString, List.append_assoc])
      (by simp [u32le, hdisc]; omega) (by simp [u32le])
  have h4 : sliceBytes (encodeAsset disc a)
      (12 + a.asset_id.length + 4) a.asset_type.length = .ok a.asset_type :=
    sliceBytes_split _
      (disc ++ u32le a.asset_id.length ++ a.asset_id ++
        u32le a.asset_type.length)
      a.asset_type
      (u64le a.valuation ++ (u32le a.metadata_uri.length ++
        (a.metadata_uri ++ (a.owner ++ (encodeBool a.is_active ++
        ([a.risk_score] ++ [a.bump]))))))
      (12 + a.asset_id.length + 4) a.asset_type.length
      (by simp [encodeAsset, encodeString, List.append_assoc])
      (by simp [u32le, hdisc]; omega) rfl
  have h5 : sliceBytes (encodeAsset disc a)
      (12 + a.asset_id.length + 4 + a.asset_type.length) 8
      = .ok (u64le a.valuation) :=
    sliceBytes_split _
      (disc ++ u32le a.asset_id.length ++ a.asset_id ++
        u32le a.asset_type.length ++ a.asset_type)
      (u64le a.valuation)
      (u32le a.metadata_uri.length ++ (a.metadata_uri ++ (a.owner ++
        (encodeBool a.is_active ++ ([a.risk_score] ++ [a.bump])))))
      (12 + a.asset_id.length + 4 + a.asset_type.length) 8
      (by simp [encodeAsset, encodeString, List.append_assoc])
      (by simp [u32le, hdisc]; omega) (by simp [u64le])
  have h6 : sliceBytes (encodeAsset disc a)
      (12 + a.asset_id.length + 4 + a.asset_type.length + 8) 4
      = .ok (u32le a.metadata_uri.length) :=
    sliceBytes_split _
      (disc ++ u32le a.asset_id.length ++ a.asset_id ++
        u32le a.asset_type.length ++ a.asset_type ++ u64le a.valuation)
      (u32le a.metadata_uri.length)
      (a.metadata_uri ++ (a.owner ++ (encodeBool a.is_active ++
        ([a.risk_score] ++ [a.bump]))))
      (12 + a.asset_id.length + 4 + a.asset_type.length + 8) 4
      (by simp [encodeAsset, encodeString, List.append_assoc])
      (by simp [u32le, u64le, hdisc]; omega) (by simp [u32le])
  have h7 : sliceBytes (encodeAsset disc a)
      (12 + a.asset_id.length + 4 + a.asset_type.length + 8 + 4)
      a.metadata_uri.length = .ok a.metadata_uri :=
    sliceBytes_split _
      (disc ++ u32le a.asset_id.length ++ a.asset_id ++
        u32le a.asset_type.length ++ a.asset_type ++ u64le a.valuation ++
        u32le a.metadata_uri.length)
      a.metadata_uri
      (a.owner ++ (encodeBool a.is_active ++ ([a.risk_score] ++ [a.bump])))
      (12 + a.asset_id.length + 4 + a.asset_type.length + 8 + 4)
      a.metadata_uri.length
      (by simp [encodeAsset, encodeString, List.append_assoc])
      (by simp [u32le, u64le, hdisc]; omega) rfl
  have h8 : sliceBytes (encodeAsset disc a)
      (12 + a.asset_id.length + 4 + a.asset_type.length + 8 + 4 +
        a.metadata_uri.length) 32 = .ok a.owner :=
    sliceBytes_split _
      (disc ++ u32le a.asset_id.length ++ a.asset_id ++
        u32le a.asset_type.length ++ a.asset_type ++ u64le a.valuation ++
        u32le a.metadata_uri.length ++ a.metadata_uri)
      a.owner
      (encodeBool a.is_active ++ ([a.risk_score] ++ [a.bump]))
      (12 + a.asset_id.length + 4 + a.asset_type.length + 8 + 4 +
        a.metadata_uri.length) 32
      (by simp [encodeAsset, encodeString, List.append_assoc])
      (by simp [u32le, u64le, hdisc]; omega) how
  have h9 : byteAt (encodeAsset disc a)
      (12 + a.asset_id.length + 4 + a.asset_type.length + 8 + 4 +
        a.metadata_uri.length + 32) = .ok (if a.is_active then 1 else 0) :=
    byteAt_split _
      (disc ++ u32le a.asset_id.length ++ a.asset_id ++
        u32le a.asset_type.length ++ a.asset_type ++ u64le a.valuation ++
        u32le a.metadata_uri.length ++ a.metadata_uri ++ a.owner)
      ([a.risk_score] ++ [a.bump])
      (if a.is_active then 1 else 0)
      (12 + a.asset_id.length + 4 + a.asset_type.length + 8 + 4 +
        a.metadata_uri.length + 32)
      (by simp [encodeAsset, encodeString, encodeBool, List.append_assoc])
      (by simp [u32le, u64le, hdisc, how]; omega)
  have h10 : byteAt (encodeAsset disc a)
      (12 + a.asset_id.length + 4 + a.asset_type.length + 8 + 4 +
        a.metadata_uri.length + 32 + 1) = .ok a.risk_score :=
    byteAt_split _
      (disc ++ u32le a.asset_id.length ++ a.asset_id ++
        u32le a.asset_type.length ++ a.asset_type ++ u64le a.valuation ++
        u32le a.metadata_uri.length ++ a.metadata_uri ++ a.owner ++
        encodeBool a.is_active)
      [a.bump] a.risk_score
      (12 + a.asset_id.length + 4 + a.asset_type.length + 8 + 4 +
        a.metadata_uri.length + 32 + 1)
      (by simp [encodeAsset, encodeString, encodeBool, List.append_assoc])
      (by simp [u32le, u64le, encodeBool, hdisc, how]; omega)
  have h11 : sliceBytes (encodeAsset disc a)
      (12 + a.asset_id.length + 4 + a.asset_type.length + 8 + 4 +
        a.metadata_uri.length + 32 + 1 + 1) 8
      = .error .panicOutOfBounds :=
    sliceBytes_oob _ _ _
      (by simp [encodeAsset, encodeString, encodeBool, u32le, u64le,
            hdisc, how]
          omega)
  simp [AssetAccount.from_bytes, h1, h2, h3, h4, h5, h6, h7, h8, h9, h10,
    h11, hle1, hle2, hle3, hs1, hs2, hs3, except_bind_ok, except_bind_error]

theorem asset_roundtrip_fails_witness :
    AssetAccount.from_bytes (encodeAsset [9, 9, 9, 9, 9, 9, 9, 9] assetWire)
      = .error .panicOutOfBounds :=
  asset_roundtrip_fails [9, 9, 9, 9, 9, 9, 9, 9] assetWire (by decide)
    (by decide)

/-- Claim C3 (the code evaluated at the failing input): on a buffer cut off
in the middle of the first string-length field, both client decoders hit an
out-of-range slice index - a Rust panic, modelled as panicOutOfBounds -
instead of returning the error result the claim states. -/
theorem decoders_panic_on_truncated_buffer :
    AssetAccount.from_bytes truncatedBuf = .error .panicOutOfBounds ∧
    LoanAccount.from_bytes truncatedBuf = .error .panicOutOfBounds := by
  decide
